import Mathlib

/-!
Shallow embedding of the AEGIS Unreal Engine plugin's seed subsystem
(`ue-plugin/Source/AegisBridge/{Public/AegisSeedSubsystem.h, Private/AegisSeedSubsystem.cpp}`).

The subsystem keeps five pieces of member state: a GUID registry
(`TMap<FString, FAegisGUIDEntry>`), a reverse path-to-GUID map
(`TMap<FString, FString>`), a snapshot store (`TMap<FString, FString>`),
a global seed string and an `int32` counter.  `TMap` is modelled as an
association list with unique keys reachable from the empty map by the
`Add` / `Remove` / `Empty` operations used in the source; `Add` replaces
the value of an existing key in place and appends otherwise, `Find` /
`Contains` look up by key, and `Remove` returns the number of removed
entries.  Engine primitives that the subsystem merely calls
(`FSHA1::HashBuffer`, `FFileHelper::SaveStringToFile`, the editor world,
`FDateTime::UtcNow`) live outside the repository and are passed in as
parameters of the corresponding operations.  `FString` is modelled as
`String`, `int32` as `Int` (no arithmetic in the claims overflows).
-/

namespace Aegis

/-- `TMap::Find` on the association-list model: value of the first matching
key, if any. -/
def mapFind {α : Type} (m : List (String × α)) (k : String) : Option α :=
  match m with
  | [] => none
  | (k', v) :: rest => if k' = k then some v else mapFind rest k

/-- `TMap::Contains` on the association-list model. -/
def mapContains {α : Type} (m : List (String × α)) (k : String) : Bool :=
  (mapFind m k).isSome

/-- `TMap::Add` on the association-list model: replace the value stored
under the key if present, append the pair otherwise. -/
def mapAdd {α : Type} (m : List (String × α)) (k : String) (v : α) : List (String × α) :=
  match m with
  | [] => [(k, v)]
  | (k', v') :: rest => if k' = k then (k, v) :: rest else (k', v') :: mapAdd rest k v

/-- `TMap::Remove` on the association-list model: drop every entry with the
key (at most one on unique-key maps) and report how many were dropped. -/
def mapRemove {α : Type} (m : List (String × α)) (k : String) : List (String × α) × Nat :=
  match m with
  | [] => ([], 0)
  | (k', v) :: rest =>
    let r := mapRemove rest k
    if k' = k then (r.1, r.2 + 1) else ((k', v) :: r.1, r.2)

/-- `FAegisGUIDEntry` (AegisSeedSubsystem.h).  `CreatedAt` is the
`FDateTime::UtcNow()` timestamp, modelled as an abstract `Nat` tick. -/
structure FAegisGUIDEntry where
  GUID : String
  EntityPath : String
  EntityType : String
  EntityName : String
  Metadata : String
  CreatedAt : Nat
  Version : Int
deriving Repr, DecidableEq

/-- member state of `UAegisSeedSubsystem` (AegisSeedSubsystem.h, private
section). -/
structure SeedSubsystemState where
  GUIDRegistry : List (String × FAegisGUIDEntry)
  PathToGUIDMap : List (String × String)
  SnapshotStorage : List (String × String)
  GlobalSeed : String
  SeedCounter : Int
deriving Repr, DecidableEq

/-- state of a freshly initialized subsystem: all maps empty, empty seed,
counter 0 (`int32 SeedCounter = 0;` and default `FString`/`TMap`
construction). -/
def initialState : SeedSubsystemState :=
  { GUIDRegistry := [], PathToGUIDMap := [], SnapshotStorage := [],
    GlobalSeed := "", SeedCounter := 0 }

/-- a digest of the wrapped engine hash primitive `FSHA1::HashBuffer`:
20 bytes, indexed 0..19 as the code indexes `Hash.Hash[i]`. -/
def EngineDigest : Type := Fin 20 → Fin 256

/-- the wrapped engine hash primitive, abstract: input string to 20-byte
digest. -/
def EngineHash : Type := String → EngineDigest

/-- one lowercase hex digit, as `%x` renders a value in 0..15. -/
def hexDigit (n : Nat) : Char :=
  if n < 10 then Char.ofNat (48 + n) else Char.ofNat (87 + n)

/-- `FString::Printf(TEXT("%02x"), b)` for a byte `b`: exactly two
lowercase hex digits. -/
def byteToLowerHex (b : Fin 256) : String :=
  String.mk [hexDigit (b.val / 16), hexDigit (b.val % 16)]

/-- `UAegisSeedSubsystem::ComputeSHA256` (AegisSeedSubsystem.cpp:682-694):
run the wrapped engine hash primitive on the input, then append
`%02x` of each of the 20 digest bytes in order. -/
def ComputeSHA256 (engineHash : EngineHash) (Input : String) : String :=
  (List.finRange 20).foldl (fun acc i => acc ++ byteToLowerHex (engineHash Input i)) ""

/-- `UAegisSeedSubsystem::GetNamespaceCode` (AegisSeedSubsystem.cpp:667-680). -/
def GetNamespaceCode (Namespace : String) : String :=
  if Namespace = "actor" then "ACT"
  else if Namespace = "component" then "CMP"
  else if Namespace = "asset" then "AST"
  else if Namespace = "blueprint" then "BPT"
  else if Namespace = "material" then "MAT"
  else if Namespace = "landscape" then "LND"
  else if Namespace = "foliage" then "FOL"
  else if Namespace = "pcg" then "PCG"
  else if Namespace = "ai" then "AIN"
  else if Namespace = "custom" then "CUS"
  else "UNK"

/-- `FString::Mid(Start, Count)`: the substring of `Count` characters
starting at `Start` (clamped to the string). -/
def fstrMid (s : String) (start count : Nat) : String :=
  String.mk ((s.data.drop start).take count)

/-- `FString::ToUpper()`: uppercase every character. -/
def fstrToUpper (s : String) : String :=
  String.mk (s.data.map Char.toUpper)

/-- `UAegisSeedSubsystem::GenerateGUID` (AegisSeedSubsystem.cpp:42-62).
The member function reads no member state, so the `st` parameter it
receives as a member is unused; the input string is
`Printf("%s:%s:%s:%d:%s", Namespace, EntityType, Seed, Counter, EntityName)`. -/
def GenerateGUID (engineHash : EngineHash) (st : SeedSubsystemState)
    (Namespace EntityType Seed : String) (Counter : Int) (EntityName : String) : String :=
  let inputString : String :=
    Namespace ++ ":" ++ EntityType ++ ":" ++ Seed ++ ":" ++ toString Counter ++ ":" ++ EntityName
  let hash := ComputeSHA256 engineHash inputString
  let namespaceCode := GetNamespaceCode Namespace
  namespaceCode ++ "-" ++ fstrToUpper (fstrMid hash 0 8)
    ++ "-" ++ fstrToUpper (fstrMid hash 8 4)
    ++ "-" ++ fstrToUpper (fstrMid hash 12 4)
    ++ "-" ++ fstrToUpper (fstrMid hash 16 12)

/-- index of the last occurrence of a character, as
`FString::FindLastChar`. -/
def findLastChar (s : String) (c : Char) : Option Nat :=
  (List.range s.data.length).foldl
    (fun acc i => if s.data.get? i = some c then some i else acc) none

/-- entity-name extraction inside `RegisterGUID`
(AegisSeedSubsystem.cpp:96-105): everything after the last slash, or the
whole path when there is none. -/
def extractEntityName (EntityPath : String) : String :=
  match findLastChar EntityPath '/' with
  | some i => String.mk (EntityPath.data.drop (i + 1))
  | none => EntityPath

/-- first rejection guard of `RegisterGUID` (AegisSeedSubsystem.cpp:67-75):
the GUID is already registered to a different entity path. -/
def guidConflict (st : SeedSubsystemState) (GUID EntityPath : String) : Bool :=
  match mapFind st.GUIDRegistry GUID with
  | some existing => existing.EntityPath != EntityPath
  | none => false

/-- second rejection guard of `RegisterGUID` (AegisSeedSubsystem.cpp:77-85):
the entity path already has a different GUID. -/
def pathConflict (st : SeedSubsystemState) (GUID EntityPath : String) : Bool :=
  match mapFind st.PathToGUIDMap EntityPath with
  | some existingGUID => existingGUID != GUID
  | none => false

/-- the `FAegisGUIDEntry` built by `RegisterGUID`
(AegisSeedSubsystem.cpp:87-105): the given fields, the `UtcNow` tick, the
entity name extracted from the path, and version 1 or the re-registration
increment. -/
def registeredEntry (st : SeedSubsystemState) (GUID EntityPath EntityType Metadata : String)
    (now : Nat) : FAegisGUIDEntry :=
  { GUID := GUID, EntityPath := EntityPath, EntityType := EntityType,
    EntityName := extractEntityName EntityPath, Metadata := Metadata,
    CreatedAt := now,
    Version :=
      match mapFind st.GUIDRegistry GUID with
      | some existing => existing.Version + 1
      | none => 1 }

/-- `UAegisSeedSubsystem::RegisterGUID` (AegisSeedSubsystem.cpp:64-113).
`now` stands for the `FDateTime::UtcNow()` call.  Returns the new state
and the `bool` result. -/
def RegisterGUID (st : SeedSubsystemState) (GUID EntityPath EntityType Metadata : String)
    (now : Nat) : SeedSubsystemState × Bool :=
  if guidConflict st GUID EntityPath then (st, false)
  else if pathConflict st GUID EntityPath then (st, false)
  else
    ({ st with
        GUIDRegistry :=
          mapAdd st.GUIDRegistry GUID (registeredEntry st GUID EntityPath EntityType Metadata now)
        PathToGUIDMap := mapAdd st.PathToGUIDMap EntityPath GUID }, true)

/-- `UAegisSeedSubsystem::ResolveGUID` (AegisSeedSubsystem.cpp:115-123):
look the GUID up in the registry. -/
def ResolveGUID (st : SeedSubsystemState) (GUID : String) : Option FAegisGUIDEntry :=
  mapFind st.GUIDRegistry GUID

/-- `UAegisSeedSubsystem::ClearGUIDRegistry` (AegisSeedSubsystem.cpp:148-153):
empty both registry maps. -/
def ClearGUIDRegistry (st : SeedSubsystemState) : SeedSubsystemState :=
  { st with GUIDRegistry := [], PathToGUIDMap := [] }

/-- `UAegisSeedSubsystem::SetGlobalSeed` (AegisSeedSubsystem.cpp:155-163). -/
def SetGlobalSeed (st : SeedSubsystemState) (Seed : String) (bResetCounter : Bool) :
    SeedSubsystemState :=
  let st1 := { st with GlobalSeed := Seed }
  if bResetCounter then { st1 with SeedCounter := 0 } else st1

/-- `UAegisSeedSubsystem::GetGlobalSeed` (AegisSeedSubsystem.h:114). -/
def GetGlobalSeed (st : SeedSubsystemState) : String := st.GlobalSeed

/-- `UAegisSeedSubsystem::GetSeedCounter` (AegisSeedSubsystem.h:118). -/
def GetSeedCounter (st : SeedSubsystemState) : Int := st.SeedCounter

/-- `UAegisSeedSubsystem::StoreSnapshot` (AegisSeedSubsystem.cpp:395-400):
add to the snapshot store, always return `true`. -/
def StoreSnapshot (st : SeedSubsystemState) (SnapshotId SnapshotData : String) :
    SeedSubsystemState × Bool :=
  ({ st with SnapshotStorage := mapAdd st.SnapshotStorage SnapshotId SnapshotData }, true)

/-- `UAegisSeedSubsystem::LoadSnapshot` (AegisSeedSubsystem.cpp:402-409):
the stored data, or the empty string when absent. -/
def LoadSnapshot (st : SeedSubsystemState) (SnapshotId : String) : String :=
  match mapFind st.SnapshotStorage SnapshotId with
  | some data => data
  | none => ""

/-- `UAegisSeedSubsystem::DeleteSnapshot` (AegisSeedSubsystem.cpp:442-450):
remove from the store; `true` exactly when something was removed. -/
def DeleteSnapshot (st : SeedSubsystemState) (SnapshotId : String) :
    SeedSubsystemState × Bool :=
  let r := mapRemove st.SnapshotStorage SnapshotId
  ({ st with SnapshotStorage := r.1 }, decide (r.2 > 0))

/-- result of `FFileHelper::SaveStringToFile(Data, Path)`, an engine
primitive outside the repository: abstract success function of the data
and the path. -/
def FileWriter : Type := String → String → Bool

/-- `UAegisSeedSubsystem::ExportSnapshot` (AegisSeedSubsystem.cpp:452-466).
`DataToWrite = SnapshotData` and the comment `// Would apply compression
here if bCompress` is a no-op; returns the data handed to the file write
together with the `bool` result. -/
def ExportSnapshot (save : FileWriter) (SnapshotId SnapshotData OutputPath : String)
    (bCompress : Bool) : String × Bool :=
  let dataToWrite := SnapshotData
  (dataToWrite, save dataToWrite OutputPath)

/-- the JSON field values the stub operations write
(`SetBoolField` / `SetNumberField`; the only number written is 0). -/
inductive JsonPrim where
  | jbool : Bool → JsonPrim
  | jnum : Int → JsonPrim
deriving Repr, DecidableEq

/-- `UAegisSeedSubsystem::SyncWorldState` (AegisSeedSubsystem.cpp:599-611):
builds and serializes a JSON object with `success = true` and
`plannedChanges = 0`, touching no member state.  The engine JSON writer is
outside the repository, so the result is the field list of the object. -/
def SyncWorldState (st : SeedSubsystemState)
    (TargetSnapshotId TargetEntities : String) (bCaptureCurrentFirst : Bool)
    (ConflictResolution : String) (bDryRun : Bool) :
    SeedSubsystemState × List (String × JsonPrim) :=
  (st, [("success", JsonPrim.jbool true), ("plannedChanges", JsonPrim.jnum 0)])

/-- `UAegisSeedSubsystem::MergeWorldStates` (AegisSeedSubsystem.cpp:613-625):
JSON object with `success = true` and `appliedChanges = 0`, no member
state touched. -/
def MergeWorldStates (st : SeedSubsystemState)
    (SourceSnapshotId TargetSnapshotId Changes ConflictResolution : String)
    (bPreserveSourceGUIDs : Bool) :
    SeedSubsystemState × List (String × JsonPrim) :=
  (st, [("success", JsonPrim.jbool true), ("appliedChanges", JsonPrim.jnum 0)])

/-- `UAegisSeedSubsystem::ApplyDiff` (AegisSeedSubsystem.cpp:627-639):
JSON object with `success = true` and `appliedChanges = 0`, no member
state touched. -/
def ApplyDiff (st : SeedSubsystemState)
    (DiffId Changes ConflictResolution : String) :
    SeedSubsystemState × List (String × JsonPrim) :=
  (st, [("success", JsonPrim.jbool true), ("appliedChanges", JsonPrim.jnum 0)])

/-- an actor of the editor world, as `VerifyGUIDEntity` inspects it:
`GetPathName()` and `GetName()`. -/
structure ActorInfo where
  pathName : String
  name : String
deriving Repr, DecidableEq

/-- the editor world, as `VerifyGUIDEntity` consults it:
`FindObject<AActor>(World->GetCurrentLevel(), Path)` success, and the
`TActorIterator` actor list. -/
structure EditorWorld where
  currentLevelFind : String → Bool
  actors : List ActorInfo

/-- `UAegisSeedSubsystem::VerifyGUIDEntity` (AegisSeedSubsystem.cpp:125-146).
`world` is `GEditor ? GEditor->GetEditorWorldContext().World() : nullptr`;
`none` models a missing editor world.  The member reads no member state,
so `st` is unused, as is the `GUID` argument. -/
def VerifyGUIDEntity (world : Option EditorWorld) (st : SeedSubsystemState)
    (GUID EntityPath : String) : Bool :=
  match world with
  | none => false
  | some w =>
    if w.currentLevelFind EntityPath then
      true
    else if w.actors.any (fun a => a.pathName = EntityPath || a.name = EntityPath) then
      true
    else
      false

/-- an operation on the two registry maps: a `RegisterGUID` call (with its
arguments and the `UtcNow` tick it observes) or a `ClearGUIDRegistry`
call. -/
inductive RegOp where
  | register (GUID EntityPath EntityType Metadata : String) (now : Nat) : RegOp
  | clear : RegOp
deriving Repr, DecidableEq

/-- run one registry operation on the state, discarding the `bool` result. -/
def applyRegOp (st : SeedSubsystemState) : RegOp → SeedSubsystemState
  | RegOp.register g p t m now => (RegisterGUID st g p t m now).1
  | RegOp.clear => ClearGUIDRegistry st

/-- run a sequence of registry operations left to right. -/
def applyRegOps (st : SeedSubsystemState) (ops : List RegOp) : SeedSubsystemState :=
  ops.foldl applyRegOp st

/-- the two-way-mapping invariant of the claim: every registry entry's path
maps back to its GUID, and every path-map image is a registered GUID with
exactly that path. -/
def biMapInv (st : SeedSubsystemState) : Prop :=
  (∀ g e, mapFind st.GUIDRegistry g = some e → mapFind st.PathToGUIDMap e.EntityPath = some g) ∧
  (∀ p g, mapFind st.PathToGUIDMap p = some g →
    ∃ e, mapFind st.GUIDRegistry g = some e ∧ e.EntityPath = p)

/-- an operation on the snapshot store: a `StoreSnapshot` or
`DeleteSnapshot` call. -/
inductive SnapOp where
  | store (SnapshotId SnapshotData : String) : SnapOp
  | delete (SnapshotId : String) : SnapOp
deriving Repr, DecidableEq

/-- run one snapshot operation on the state, discarding the `bool` result. -/
def applySnapOp (st : SeedSubsystemState) : SnapOp → SeedSubsystemState
  | SnapOp.store id data => (StoreSnapshot st id data).1
  | SnapOp.delete id => (DeleteSnapshot st id).1

/-- run a sequence of snapshot operations left to right. -/
def applySnapOps (st : SeedSubsystemState) (ops : List SnapOp) : SeedSubsystemState :=
  ops.foldl applySnapOp st

/-- whether a snapshot operation mentions the given snapshot id at all. -/
def SnapOp.touches (op : SnapOp) (id : String) : Bool :=
  match op with
  | SnapOp.store i _ => i = id
  | SnapOp.delete i => i = id

/-- whether a snapshot operation is a store of the given snapshot id. -/
def SnapOp.isStoreOf (op : SnapOp) (id : String) : Bool :=
  match op with
  | SnapOp.store i _ => i = id
  | SnapOp.delete _ => false

/-- the namespace-code table exactly as the claim lists it, written from
the spec's words for comparison with `GetNamespaceCode`. -/
def specNamespaceCode (Namespace : String) : String :=
  if Namespace = "actor" then "ACT"
  else if Namespace = "component" then "CMP"
  else if Namespace = "asset" then "AST"
  else if Namespace = "blueprint" then "BPT"
  else if Namespace = "material" then "MAT"
  else if Namespace = "landscape" then "LND"
  else if Namespace = "foliage" then "FOL"
  else if Namespace = "pcg" then "PCG"
  else if Namespace = "ai" then "AIN"
  else if Namespace = "custom" then "CUS"
  else "UNK"

/-- the characters of a string at positions `[a, b)`, uppercased, written
from the spec's words. -/
def specUpperSlice (s : String) (a b : Nat) : String :=
  String.mk (((s.data.drop a).take (b - a)).map Char.toUpper)

/-- the GUID format exactly as the claim describes it: the namespace code,
then the uppercased hash characters at positions `[0,8)`, `[8,12)`,
`[12,16)` and `[16,28)`, dash-separated; written from the spec's words. -/
def specGUIDFormat (Namespace hash : String) : String :=
  specNamespaceCode Namespace
    ++ "-" ++ specUpperSlice hash 0 8
    ++ "-" ++ specUpperSlice hash 8 12
    ++ "-" ++ specUpperSlice hash 12 16
    ++ "-" ++ specUpperSlice hash 16 28

/-- the sixteen lowercase hexadecimal digits. -/
def lowercaseHexDigits : List Char :=
  String.data "0123456789abcdef"

/-- the two lowercase hex characters of one digest byte, written from the
spec's words (byte-wise hexadecimal encoding). -/
def specByteHexChars (b : Fin 256) : List Char :=
  [hexDigit (b.val / 16), hexDigit (b.val % 16)]

/-- looking up the key just added finds the new value. -/
theorem mapFind_mapAdd_self {α : Type} (m : List (String × α)) (k : String) (v : α) :
    mapFind (mapAdd m k v) k = some v := by
  induction m with
  | nil => simp [mapAdd, mapFind]
  | cons hd tl ih =>
    obtain ⟨k', v'⟩ := hd
    by_cases h : k' = k
    · simp [mapAdd, h, mapFind]
    · simp [mapAdd, h, mapFind, ih]

/-- adding one key leaves every other key's lookup unchanged. -/
theorem mapFind_mapAdd_ne {α : Type} (m : List (String × α)) (k k' : String) (v : α)
    (h : k' ≠ k) : mapFind (mapAdd m k v) k' = mapFind m k' := by
  have h' : ¬ k = k' := fun hh => h hh.symm
  induction m with
  | nil => simp [mapAdd, mapFind, h']
  | cons hd tl ih =>
    obtain ⟨k0, v0⟩ := hd
    by_cases h0 : k0 = k
    · subst h0
      simp [mapAdd, mapFind, h']
    · simp [mapAdd, h0, mapFind, ih]

/-- looking up the removed key fails. -/
theorem mapFind_mapRemove_self {α : Type} (m : List (String × α)) (k : String) :
    mapFind (mapRemove m k).1 k = none := by
  induction m with
  | nil => simp [mapRemove, mapFind]
  | cons hd tl ih =>
    obtain ⟨k0, v0⟩ := hd
    by_cases h0 : k0 = k
    · simp [mapRemove, h0, ih]
    · simp [mapRemove, h0, mapFind, ih]

/-- removing one key leaves every other key's lookup unchanged. -/
theorem mapFind_mapRemove_ne {α : Type} (m : List (String × α)) (k k' : String)
    (h : k' ≠ k) : mapFind (mapRemove m k).1 k' = mapFind m k' := by
  have h' : ¬ k = k' := fun hh => h hh.symm
  induction m with
  | nil => simp [mapRemove, mapFind]
  | cons hd tl ih =>
    obtain ⟨k0, v0⟩ := hd
    by_cases h0 : k0 = k
    · subst h0
      simp [mapRemove, mapFind, h', ih]
    · simp [mapRemove, h0, mapFind, ih]

/-- C1: for every input, the three world-state stub operations report
success with zero changes: `SyncWorldState` returns a JSON object with
`success = true` and `plannedChanges = 0`, and `MergeWorldStates` and
`ApplyDiff` each return a JSON object with `success = true` and
`appliedChanges = 0`, regardless of their snapshot-id, entities/changes,
conflict-resolution and flag arguments, and without modifying any
subsystem state. -/
theorem stub_ops_success_zero_changes :
    ∀ (st : SeedSubsystemState) (tsid tent : String) (bcap : Bool) (cres : String)
      (bdry : Bool) (ssid mtsid mch mcres : String) (bpres : Bool)
      (did dch dcres : String),
    SyncWorldState st tsid tent bcap cres bdry =
      (st, [("success", JsonPrim.jbool true), ("plannedChanges", JsonPrim.jnum 0)]) ∧
    MergeWorldStates st ssid mtsid mch mcres bpres =
      (st, [("success", JsonPrim.jbool true), ("appliedChanges", JsonPrim.jnum 0)]) ∧
    ApplyDiff st did dch dcres =
      (st, [("success", JsonPrim.jbool true), ("appliedChanges", JsonPrim.jnum 0)]) := by
  intro st tsid tent bcap cres bdry ssid mtsid mch mcres bpres did dch dcres
  exact ⟨rfl, rfl, rfl⟩

/-- C2: GUID generation is deterministic: two `GenerateGUID` invocations
with equal arguments return equal strings in any two subsystem states; in
particular the result does not depend on `GlobalSeed`, `SeedCounter`, the
GUID registry or the snapshot store. -/
theorem generateGUID_deterministic :
    ∀ (engineHash : EngineHash) (st1 st2 : SeedSubsystemState)
      (Namespace EntityType Seed : String) (Counter : Int) (EntityName : String),
    GenerateGUID engineHash st1 Namespace EntityType Seed Counter EntityName =
      GenerateGUID engineHash st2 Namespace EntityType Seed Counter EntityName := by
  intro engineHash st1 st2 Namespace EntityType Seed Counter EntityName
  rfl

/-- C7: `ExportSnapshot` hands exactly `SnapshotData` to the file write,
identically for `bCompress = true` and `bCompress = false`; the flag has
no effect on the written content or the return value, and the result is
`true` exactly when the file write succeeds. -/
theorem exportSnapshot_no_compression :
    ∀ (save : FileWriter) (SnapshotId SnapshotData OutputPath : String) (bCompress : Bool),
    (ExportSnapshot save SnapshotId SnapshotData OutputPath bCompress).1 = SnapshotData ∧
    ExportSnapshot save SnapshotId SnapshotData OutputPath true =
      ExportSnapshot save SnapshotId SnapshotData OutputPath false ∧
    ((ExportSnapshot save SnapshotId SnapshotData OutputPath bCompress).2 = true ↔
      save SnapshotData OutputPath = true) := by
  intro save SnapshotId SnapshotData OutputPath bCompress
  exact ⟨rfl, rfl, Iff.rfl⟩

/-- C9: `VerifyGUIDEntity` is independent of its GUID argument and of the
registry state, returns `false` when no editor world is available, and
otherwise decides its result solely from whether an actor matching
`EntityPath` (by object path or by name) exists in the editor world. -/
theorem verifyGUIDEntity_guid_independent :
    ∀ (world : Option EditorWorld) (st1 st2 : SeedSubsystemState) (g1 g2 EntityPath : String),
    VerifyGUIDEntity world st1 g1 EntityPath = VerifyGUIDEntity world st2 g2 EntityPath ∧
    VerifyGUIDEntity none st1 g1 EntityPath = false ∧
    (∀ w : EditorWorld, VerifyGUIDEntity (some w) st1 g1 EntityPath =
      (w.currentLevelFind EntityPath ||
        w.actors.any (fun a => a.pathName = EntityPath || a.name = EntityPath))) := by
  intro world st1 st2 g1 g2 EntityPath
  refine ⟨rfl, rfl, ?_⟩
  intro w
  by_cases h1 : w.currentLevelFind EntityPath
  · simp [VerifyGUIDEntity, h1]
  · simp only [Bool.not_eq_true] at h1
    by_cases h2 : w.actors.any (fun a => a.pathName = EntityPath || a.name = EntityPath)
    · simp [VerifyGUIDEntity, h1, h2]
    · simp only [Bool.not_eq_true] at h2
      simp [VerifyGUIDEntity, h1, h2]

/-- C10: `SetGlobalSeed` sets `GlobalSeed` to the given seed, resets
`SeedCounter` to 0 exactly when `bResetCounter` is true (leaving it
unchanged otherwise), and modifies no other subsystem state, so
`GetGlobalSeed` and `GetSeedCounter` report accordingly. -/
theorem setGlobalSeed_frame :
    ∀ (st : SeedSubsystemState) (Seed : String) (bResetCounter : Bool),
    (SetGlobalSeed st Seed bResetCounter).GlobalSeed = Seed ∧
    (SetGlobalSeed st Seed bResetCounter).SeedCounter =
      (if bResetCounter then 0 else st.SeedCounter) ∧
    (SetGlobalSeed st Seed bResetCounter).GUIDRegistry = st.GUIDRegistry ∧
    (SetGlobalSeed st Seed bResetCounter).PathToGUIDMap = st.PathToGUIDMap ∧
    (SetGlobalSeed st Seed bResetCounter).SnapshotStorage = st.SnapshotStorage ∧
    GetGlobalSeed (SetGlobalSeed st Seed bResetCounter) = Seed ∧
    GetSeedCounter (SetGlobalSeed st Seed bResetCounter) =
      (if bResetCounter then 0 else GetSeedCounter st) := by
  intro st Seed bResetCounter
  cases bResetCounter <;>
    simp [SetGlobalSeed, GetGlobalSeed, GetSeedCounter]

/-- C3: `GenerateGUID` returns `NSCODE-G1-G2-G3-G4`, with `NSCODE` the
three-letter code of the namespace from the claim's table and `G1..G4`
the uppercased hex characters at positions `[0,8)`, `[8,12)`, `[12,16)`
and `[16,28)` of the hash of the concatenation
`Namespace:EntityType:Seed:Counter:EntityName`. -/
theorem generateGUID_format :
    ∀ (engineHash : EngineHash) (st : SeedSubsystemState)
      (Namespace EntityType Seed : String) (Counter : Int) (EntityName : String),
    GenerateGUID engineHash st Namespace EntityType Seed Counter EntityName =
      specGUIDFormat Namespace
        (ComputeSHA256 engineHash
          (Namespace ++ ":" ++ EntityType ++ ":" ++ Seed ++ ":"
            ++ toString Counter ++ ":" ++ EntityName)) ∧
    GetNamespaceCode Namespace = specNamespaceCode Namespace := by
  intro engineHash st Namespace EntityType Seed Counter EntityName
  refine ⟨?_, rfl⟩
  simp only [GenerateGUID, specGUIDFormat, specUpperSlice, fstrToUpper, fstrMid,
    GetNamespaceCode, specNamespaceCode]

/-- the character data of a string-building left fold is the flattened
character data of the pieces, appended after the accumulator. -/
theorem foldl_append_data {α : Type} (f : α → String) :
    ∀ (l : List α) (s : String),
    (l.foldl (fun acc i => acc ++ f i) s).data =
      s.data ++ (l.map (fun i => (f i).data)).flatten := by
  intro l
  induction l with
  | nil => intro s; simp [List.foldl]
  | cons hd tl ih =>
    intro s
    simp only [List.foldl_cons, List.map_cons, List.flatten_cons]
    rw [ih, String.data_append, List.append_assoc]

/-- a flatten of two-character chunks has twice as many characters as
there are chunks. -/
theorem flatten_pairs_length {α : Type} (f : α → List Char) (hf : ∀ a, (f a).length = 2) :
    ∀ (l : List α), ((l.map f).flatten).length = 2 * l.length := by
  intro l
  induction l with
  | nil => simp
  | cons hd tl ih =>
    simp only [List.map_cons, List.flatten_cons, List.length_append, ih, hf, List.length_cons]
    ring

/-- every value of `hexDigit` on 0..15 is a lowercase hexadecimal digit. -/
theorem hexDigit_mem_lowercase : ∀ n < 16, hexDigit n ∈ lowercaseHexDigits := by
  decide

/-- C8: `ComputeSHA256` is a direct passthrough to the wrapped hash
primitive: its character data is the byte-wise lowercase hexadecimal
encoding of the 20-byte digest the engine primitive produces on the
input, its length is 40, and every character is a lowercase hex digit —
no salting, iteration, truncation or other transformation. -/
theorem computeSHA256_passthrough :
    ∀ (engineHash : EngineHash) (Input : String),
    (ComputeSHA256 engineHash Input).data =
      (((List.finRange 20).map (engineHash Input)).map specByteHexChars).flatten ∧
    (ComputeSHA256 engineHash Input).length = 40 ∧
    (∀ c ∈ (ComputeSHA256 engineHash Input).data, c ∈ lowercaseHexDigits) := by
  intro engineHash Input
  have hdata : (ComputeSHA256 engineHash Input).data =
      (((List.finRange 20).map (engineHash Input)).map specByteHexChars).flatten := by
    rw [ComputeSHA256, foldl_append_data]
    simp [List.map_map]
    rfl
  refine ⟨hdata, ?_, ?_⟩
  · show (ComputeSHA256 engineHash Input).data.length = 40
    rw [hdata, List.map_map, flatten_pairs_length]
    · simp
    · intro a; rfl
  · intro c hc
    rw [hdata] at hc
    rcases List.mem_flatten.1 hc with ⟨l, hl, hcl⟩
    rcases List.mem_map.1 hl with ⟨b, hb, rfl⟩
    simp only [specByteHexChars, List.mem_cons, List.not_mem_nil, or_false] at hcl
    rcases hcl with h | h
    · rw [h]
      exact hexDigit_mem_lowercase _ (Nat.div_lt_of_lt_mul b.isLt)
    · rw [h]
      exact hexDigit_mem_lowercase _ (Nat.mod_lt _ (by norm_num))

/-- the first guard passes exactly when any existing registration of the
GUID carries the same entity path. -/
theorem guidConflict_false_iff (st : SeedSubsystemState) (GUID EntityPath : String) :
    guidConflict st GUID EntityPath = false ↔
      ∀ e, mapFind st.GUIDRegistry GUID = some e → e.EntityPath = EntityPath := by
  unfold guidConflict
  cases h : mapFind st.GUIDRegistry GUID with
  | none => simp
  | some e => simp [bne_eq_false_iff_eq]

/-- the second guard passes exactly when any existing GUID of the entity
path is the same GUID. -/
theorem pathConflict_false_iff (st : SeedSubsystemState) (GUID EntityPath : String) :
    pathConflict st GUID EntityPath = false ↔
      ∀ g, mapFind st.PathToGUIDMap EntityPath = some g → g = GUID := by
  unfold pathConflict
  cases h : mapFind st.PathToGUIDMap EntityPath with
  | none => simp
  | some g => simp [bne_eq_false_iff_eq]

/-- C5: `RegisterGUID` is atomic on failure: when the GUID is already
registered to a different entity path or the entity path already maps to
a different GUID it returns `false` and leaves both maps unchanged;
otherwise it returns `true` and afterwards the registry holds an entry
for the GUID with the given path, type and metadata, and the path map
sends the path to the GUID. -/
theorem registerGUID_atomic :
    ∀ (st : SeedSubsystemState) (GUID EntityPath EntityType Metadata : String) (now : Nat),
    ((guidConflict st GUID EntityPath || pathConflict st GUID EntityPath) = true →
      RegisterGUID st GUID EntityPath EntityType Metadata now = (st, false)) ∧
    ((guidConflict st GUID EntityPath || pathConflict st GUID EntityPath) = false →
      (RegisterGUID st GUID EntityPath EntityType Metadata now).2 = true ∧
      (∃ e, mapFind (RegisterGUID st GUID EntityPath EntityType Metadata now).1.GUIDRegistry
          GUID = some e ∧
        e.EntityPath = EntityPath ∧ e.EntityType = EntityType ∧ e.Metadata = Metadata) ∧
      mapFind (RegisterGUID st GUID EntityPath EntityType Metadata now).1.PathToGUIDMap
        EntityPath = some GUID) := by
  intro st GUID EntityPath EntityType Metadata now
  by_cases h1 : guidConflict st GUID EntityPath = true
  · refine ⟨fun _ => by simp [RegisterGUID, h1], fun h => ?_⟩
    rw [h1] at h
    simp at h
  · have h1' : guidConflict st GUID EntityPath = false := Bool.not_eq_true _ ▸ eq_false_of_ne_true h1
    by_cases h2 : pathConflict st GUID EntityPath = true
    · refine ⟨fun _ => by simp [RegisterGUID, h1', h2], fun h => ?_⟩
      rw [h2] at h
      simp at h
    · have h2' : pathConflict st GUID EntityPath = false := eq_false_of_ne_true h2
      refine ⟨fun h => ?_, fun _ => ?_⟩
      · rw [h1', h2'] at h
        simp at h
      · refine ⟨by simp [RegisterGUID, h1', h2'], ?_, ?_⟩
        · refine ⟨registeredEntry st GUID EntityPath EntityType Metadata now, ?_, rfl, rfl, rfl⟩
          simp [RegisterGUID, h1', h2', mapFind_mapAdd_self]
        · simp [RegisterGUID, h1', h2', mapFind_mapAdd_self]

/-- concrete run of `registerGUID_atomic`: registering a fresh pair
succeeds and is visible in both maps, and re-registering the GUID under a
different path fails without changing the state. -/
theorem registerGUID_atomic_witness :
    (RegisterGUID initialState "ACT-1" "/Level/A" "actor" "m" 7).2 = true ∧
    mapFind (RegisterGUID initialState "ACT-1" "/Level/A" "actor" "m" 7).1.PathToGUIDMap
      "/Level/A" = some "ACT-1" ∧
    RegisterGUID (RegisterGUID initialState "ACT-1" "/Level/A" "actor" "m" 7).1
        "ACT-1" "/Level/B" "actor" "m" 8 =
      ((RegisterGUID initialState "ACT-1" "/Level/A" "actor" "m" 7).1, false) := by
  have hsucc := (registerGUID_atomic initialState "ACT-1" "/Level/A" "actor" "m" 7).2 (by decide)
  have hfail := (registerGUID_atomic (RegisterGUID initialState "ACT-1" "/Level/A" "actor" "m" 7).1
    "ACT-1" "/Level/B" "actor" "m" 8).1 (by decide)
  exact ⟨hsucc.1, hsucc.2.2, hfail⟩

/-- the empty two-map state satisfies the two-way-mapping invariant. -/
theorem biMapInv_initial : biMapInv initialState := by
  constructor
  · intro g e h
    simp [initialState, mapFind] at h
  · intro p g h
    simp [initialState, mapFind] at h

/-- `ClearGUIDRegistry` re-establishes the two-way-mapping invariant from
any state. -/
theorem biMapInv_clear (st : SeedSubsystemState) : biMapInv (ClearGUIDRegistry st) := by
  constructor
  · intro g e h
    simp [ClearGUIDRegistry, mapFind] at h
  · intro p g h
    simp [ClearGUIDRegistry, mapFind] at h

/-- `RegisterGUID` preserves the two-way-mapping invariant. -/
theorem biMapInv_register (st : SeedSubsystemState) (g p t m : String) (now : Nat)
    (hinv : biMapInv st) : biMapInv (RegisterGUID st g p t m now).1 := by
  by_cases h1 : guidConflict st g p = true
  · simpa [RegisterGUID, h1] using hinv
  · have h1' : guidConflict st g p = false := eq_false_of_ne_true h1
    by_cases h2 : pathConflict st g p = true
    · simpa [RegisterGUID, h1', h2] using hinv
    · have h2' : pathConflict st g p = false := eq_false_of_ne_true h2
      have hg1 := (guidConflict_false_iff st g p).1 h1'
      have hg2 := (pathConflict_false_iff st g p).1 h2'
      have hst : (RegisterGUID st g p t m now).1 =
          { st with
              GUIDRegistry := mapAdd st.GUIDRegistry g (registeredEntry st g p t m now)
              PathToGUIDMap := mapAdd st.PathToGUIDMap p g } := by
        simp [RegisterGUID, h1', h2']
      rw [hst]
      constructor
      · intro g' e' hfind
        simp only at hfind ⊢
        by_cases hgg : g' = g
        · subst hgg
          rw [mapFind_mapAdd_self] at hfind
          have he : e' = registeredEntry st g' p t m now := by
            injection hfind with h
            exact h.symm
          subst he
          have hep : (registeredEntry st g' p t m now).EntityPath = p := rfl
          rw [hep]
          exact mapFind_mapAdd_self _ _ _
        · rw [mapFind_mapAdd_ne _ _ _ _ hgg] at hfind
          have hback := hinv.1 g' e' hfind
          have hne : e'.EntityPath ≠ p := by
            intro heq
            rw [heq] at hback
            exact hgg (hg2 g' hback)
          rw [mapFind_mapAdd_ne _ _ _ _ hne]
          exact hback
      · intro p' g' hfind
        simp only at hfind ⊢
        by_cases hpp : p' = p
        · subst hpp
          rw [mapFind_mapAdd_self] at hfind
          have hgg : g' = g := by
            injection hfind with h
            exact h.symm
          subst hgg
          exact ⟨registeredEntry st g' p' t m now, mapFind_mapAdd_self _ _ _, rfl⟩
        · rw [mapFind_mapAdd_ne _ _ _ _ hpp] at hfind
          obtain ⟨e', hreg, hep⟩ := hinv.2 p' g' hfind
          have hne : g' ≠ g := by
            intro heq
            rw [heq] at hreg
            exact hpp (hep ▸ hg1 e' hreg ▸ rfl)
          exact ⟨e', by rw [mapFind_mapAdd_ne _ _ _ _ hne]; exact hreg, hep⟩

/-- C4: after every sequence of `RegisterGUID` and `ClearGUIDRegistry`
operations starting from the empty registry, `GUIDRegistry` and
`PathToGUIDMap` are exact inverses: every registry entry's path maps back
to its GUID, and every path-map image is registered with exactly that
path. -/
theorem guid_registry_two_way :
    ∀ ops : List RegOp, biMapInv (applyRegOps initialState ops) := by
  have h : ∀ (ops : List RegOp) (st : SeedSubsystemState),
      biMapInv st → biMapInv (applyRegOps st ops) := by
    intro ops
    induction ops with
    | nil => intro st hst; exact hst
    | cons op rest ih =>
      intro st hst
      have hstep : biMapInv (applyRegOp st op) := by
        cases op with
        | register g p t m now => exact biMapInv_register st g p t m now hst
        | clear => exact biMapInv_clear st
      exact ih _ hstep
  intro ops
  exact h ops initialState biMapInv_initial

/-- running snapshot operations that never store a given id either leaves
that id's entry unchanged (no delete of the id occurs) or erases it. -/
theorem find_applySnapOps_no_store (id : String) :
    ∀ (ops : List SnapOp) (st : SeedSubsystemState),
    (∀ op ∈ ops, SnapOp.isStoreOf op id = false) →
    mapFind (applySnapOps st ops).SnapshotStorage id =
      (if SnapOp.delete id ∈ ops then none else mapFind st.SnapshotStorage id) := by
  intro ops
  induction ops with
  | nil =>
    intro st h
    simp [applySnapOps]
  | cons op rest ih =>
    intro st h
    have hop := h op (List.mem_cons_self op rest)
    have hrest : ∀ o ∈ rest, SnapOp.isStoreOf o id = false :=
      fun o ho => h o (List.mem_cons_of_mem op ho)
    have hstep : applySnapOps st (op :: rest) = applySnapOps (applySnapOp st op) rest := rfl
    rw [hstep, ih _ hrest]
    cases op with
    | store i d =>
      have hi : ¬ i = id := by
        simpa [SnapOp.isStoreOf] using hop
      have hfind : mapFind (applySnapOp st (SnapOp.store i d)).SnapshotStorage id =
          mapFind st.SnapshotStorage id := by
        simp only [applySnapOp, StoreSnapshot]
        exact mapFind_mapAdd_ne _ _ _ _ (fun hh => hi hh.symm)
      rw [hfind]
      simp
    | delete i =>
      by_cases hi : i = id
      · subst hi
        have hfind : mapFind (applySnapOp st (SnapOp.delete i)).SnapshotStorage i = none := by
          simp only [applySnapOp, DeleteSnapshot]
          exact mapFind_mapRemove_self _ _
        rw [hfind]
        simp
      · have hfind : mapFind (applySnapOp st (SnapOp.delete i)).SnapshotStorage id =
            mapFind st.SnapshotStorage id := by
          simp only [applySnapOp, DeleteSnapshot]
          exact mapFind_mapRemove_ne _ _ _ (fun hh => hi hh.symm)
        rw [hfind]
        have hne : SnapOp.delete id ≠ SnapOp.delete i := by
          intro hh
          injection hh with h'
          exact hi h'.symm
        have hmem : (SnapOp.delete id ∈ SnapOp.delete i :: rest) ↔ SnapOp.delete id ∈ rest := by
          simp [List.mem_cons, hne]
        rw [if_congr hmem rfl rfl]

/-- an operation that does not mention an id in particular does not store
under it. -/
theorem touches_false_isStoreOf_false (op : SnapOp) (id : String)
    (h : SnapOp.touches op id = false) : SnapOp.isStoreOf op id = false := by
  cases op with
  | store i d => simpa [SnapOp.touches, SnapOp.isStoreOf] using h
  | delete i => simp [SnapOp.isStoreOf]

/-- C6: the snapshot store round-trips: `StoreSnapshot` always returns
`true`; after a store, with no later operation on the same id,
`LoadSnapshot` returns exactly the stored data; an id never stored loads
as the empty string; and once the operations after the last store of an
id include a `DeleteSnapshot` of it, it loads as the empty string. -/
theorem snapshot_store_roundtrip :
    ∀ (st : SeedSubsystemState) (id data : String) (ops : List SnapOp),
    (StoreSnapshot st id data).2 = true ∧
    ((∀ op ∈ ops, SnapOp.touches op id = false) →
      LoadSnapshot (applySnapOps (StoreSnapshot st id data).1 ops) id = data) ∧
    ((∀ op ∈ ops, SnapOp.isStoreOf op id = false) →
      LoadSnapshot (applySnapOps initialState ops) id = "") ∧
    ((∀ op ∈ ops, SnapOp.isStoreOf op id = false) → SnapOp.delete id ∈ ops →
      LoadSnapshot (applySnapOps st ops) id = "") := by
  intro st id data ops
  refine ⟨rfl, ?_, ?_, ?_⟩
  · intro h
    have hnostore : ∀ op ∈ ops, SnapOp.isStoreOf op id = false :=
      fun op hop => touches_false_isStoreOf_false op id (h op hop)
    have hnodel : SnapOp.delete id ∉ ops := by
      intro hmem
      have := h (SnapOp.delete id) hmem
      simp [SnapOp.touches] at this
    have hfind := find_applySnapOps_no_store id ops (StoreSnapshot st id data).1 hnostore
    rw [if_neg hnodel] at hfind
    have hstored : mapFind (StoreSnapshot st id data).1.SnapshotStorage id = some data := by
      simp only [StoreSnapshot]
      exact mapFind_mapAdd_self _ _ _
    rw [hstored] at hfind
    simp [LoadSnapshot, hfind]
  · intro h
    have hfind := find_applySnapOps_no_store id ops initialState h
    by_cases hdel : SnapOp.delete id ∈ ops
    · rw [if_pos hdel] at hfind
      simp [LoadSnapshot, hfind]
    · rw [if_neg hdel] at hfind
      have : mapFind initialState.SnapshotStorage id = none := rfl
      rw [this] at hfind
      simp [LoadSnapshot, hfind]
  · intro h hdel
    have hfind := find_applySnapOps_no_store id ops st h
    rw [if_pos hdel] at hfind
    simp [LoadSnapshot, hfind]

/-- concrete run of `snapshot_store_roundtrip`: a stored snapshot loads
back after unrelated operations, and loads as the empty string after its
delete. -/
theorem snapshot_store_roundtrip_witness :
    LoadSnapshot
      (applySnapOps (StoreSnapshot initialState "snap-1" "world-data").1
        [SnapOp.store "snap-2" "x", SnapOp.delete "snap-2"]) "snap-1" = "world-data" ∧
    LoadSnapshot
      (applySnapOps initialState [SnapOp.store "snap-2" "x"]) "snap-1" = "" ∧
    LoadSnapshot
      (applySnapOps (StoreSnapshot initialState "snap-1" "world-data").1
        [SnapOp.delete "snap-1"]) "snap-1" = "" := by
  refine ⟨?_, ?_, ?_⟩
  · exact (snapshot_store_roundtrip initialState "snap-1" "world-data"
      [SnapOp.store "snap-2" "x", SnapOp.delete "snap-2"]).2.1 (by decide)
  · exact (snapshot_store_roundtrip initialState "snap-1" "world-data"
      [SnapOp.store "snap-2" "x"]).2.2.1 (by decide)
  · exact (snapshot_store_roundtrip (StoreSnapshot initialState "snap-1" "world-data").1
      "snap-1" "world-data" [SnapOp.delete "snap-1"]).2.2.2 (by decide) (by decide)

/-- concrete run of `computeSHA256_passthrough`: on the all-zero digest
the hex string's first character is a lowercase hex digit. -/
theorem computeSHA256_passthrough_witness :
    '0' ∈ (ComputeSHA256 (fun _ _ => (0 : Fin 256)) "seed").data ∧ '0' ∈ lowercaseHexDigits := by
  refine ⟨by decide, ?_⟩
  exact (computeSHA256_passthrough (fun _ _ => (0 : Fin 256)) "seed").2.2 '0' (by decide)

end Aegis
